import Mathlib

/-!
Verification of the go-passkeys WebAuthn relying-party verifier core
(`webauthn/webauthn.go`) against its natural-language specification.

Byte strings are modelled as `List Nat` (each element a byte value).
Go's standard-library cryptographic primitives (SHA-2 digests, ECDSA,
Ed25519 and RSA verification) are external collaborators and appear as
uninterpreted function parameters bundled in `CryptoPrims`.  Go's dynamic
`crypto.PublicKey` values are modelled by the tagged union
`CryptoPublicKey`; the `...Ptr` constructors stand for Go pointer values
(`*ecdsa.PublicKey`, `*ed25519.PublicKey`, `*rsa.PublicKey`) and
`ed25519Val` for a plain (non-pointer) `ed25519.PublicKey`, because the
source's type assertions distinguish the two.

The package `webauthn/internal/cbor` is not part of the sources at hand;
its decoder and COSE-key reader are modelled from the specification
(sections 4.1 and 4.2) and are marked `Modelled from the spec:` below.
All other definitions are direct translations of `webauthn.go`.
-/

set_option maxRecDepth 100000

deriving instance DecidableEq for Except

namespace GoPasskeys

/-- Byte strings: Go `[]byte` slices, one natural number per byte. -/
abbrev Bytes := List Nat

/-- Error kinds of the closed error taxonomy (spec section 7).  The source
returns `fmt.Errorf` values; each distinct failure site is mapped to its
spec error kind. -/
inductive WebauthnError where
  | malformedClientData
  | clientDataTypeMismatch
  | originMismatch
  | challengeMismatch
  | malformedAttestation
  | malformedAuthData
  | malformedCOSEKey
  | relyingPartyMismatch
  | unsupportedAlgorithm
  | algorithmKeyMismatch
  | invalidSignature
  deriving DecidableEq

/-- COSE algorithm identifiers, from the `const` block of `webauthn.go`. -/
def ES256 : Int := -7

/-- ES384 algorithm tag. -/
def ES384 : Int := -35

/-- ES512 algorithm tag. -/
def ES512 : Int := -36

/-- EdDSA algorithm tag. -/
def EdDSA : Int := -8

/-- RS256 algorithm tag. -/
def RS256 : Int := -257

/-- RS384 algorithm tag. -/
def RS384 : Int := -258

/-- RS512 algorithm tag. -/
def RS512 : Int := -259

/-- Modelled from the spec: width in bytes of the argument that follows a
CBOR head byte with additional-information value `addl` (section 4.1);
indefinite-length encodings (`addl = 31`) and reserved values are rejected. -/
def headWidth (addl : Nat) : Option Nat :=
  if addl < 24 then some 0
  else if addl = 24 then some 1
  else if addl = 25 then some 2
  else if addl = 26 then some 4
  else if addl = 27 then some 8
  else none

/-- Big-endian value of a byte list. -/
def beVal (l : Bytes) : Nat := l.foldl (fun acc x => acc * 256 + x) 0

/-- Modelled from the spec: read one CBOR head, returning the major type,
the argument value, and the remaining input (section 4.1). -/
def readHead (b : Bytes) : Option (Nat × Nat × Bytes) :=
  match b with
  | [] => none
  | hd :: tl =>
    match headWidth (hd % 32) with
    | none => none
    | some w =>
      if w = 0 then some (hd / 32, hd % 32, tl)
      else if w ≤ tl.length then some (hd / 32, beVal (tl.take w), tl.drop w)
      else none

/-- Modelled from the spec: skip `k` complete CBOR items, returning the
remaining input (the decoder's `skip`, used for unknown map entries;
section 4.1).  Arrays enqueue their elements, maps twice their pair
count, tags their single child.  The recursion carries a fuel argument;
every step consumes at least one input byte from `b`, so the fuel
`b.length + 2` supplied by [skipN] never runs out. -/
def skipFuel : Nat → Nat → Bytes → Option Bytes
  | 0, _, _ => none
  | _ + 1, 0, b => some b
  | fuel + 1, k + 1, b =>
    match readHead b with
    | none => none
    | some (major, n, rest) =>
      if major = 0 ∨ major = 1 ∨ major = 7 then skipFuel fuel k rest
      else if major = 2 ∨ major = 3 then
        if n ≤ rest.length then skipFuel fuel k (rest.drop n) else none
      else if major = 4 then skipFuel fuel (k + n) rest
      else if major = 5 then skipFuel fuel (k + 2 * n) rest
      else if major = 6 then skipFuel fuel (k + 1) rest
      else none

/-- Skip `k` complete CBOR items with sufficient fuel. -/
def skipN (k : Nat) (b : Bytes) : Option Bytes := skipFuel (b.length + 2) k b

/-- Modelled from the spec: the decoder's `read_raw` — capture the byte
span of the next complete CBOR item without interpreting it
(section 4.1). -/
def rawItem (b : Bytes) : Option (Bytes × Bytes) :=
  match skipN 1 b with
  | none => none
  | some rest => some (b.take (b.length - rest.length), rest)

/-- Modelled from the spec: the decoder's `read_bytes` — a finite byte
string, major type 2 (section 4.1). -/
def readBytes (b : Bytes) : Option (Bytes × Bytes) :=
  match readHead b with
  | some (2, n, rest) => if n ≤ rest.length then some (rest.take n, rest.drop n) else none
  | _ => none

/-- Modelled from the spec: the decoder's `read_text` — a finite text
string, major type 3, returned as its raw UTF-8 bytes (section 4.1). -/
def readText (b : Bytes) : Option (Bytes × Bytes) :=
  match readHead b with
  | some (3, n, rest) => if n ≤ rest.length then some (rest.take n, rest.drop n) else none
  | _ => none

/-- Modelled from the spec: the decoder's `read_int` — major type 0 is the
value itself, major type 1 encodes `-1 - n` (section 4.1). -/
def readInt (b : Bytes) : Option (Int × Bytes) :=
  match readHead b with
  | some (0, n, rest) => some ((n : Int), rest)
  | some (1, n, rest) => some (-1 - (n : Int), rest)
  | _ => none

/-- Modelled from the spec: read a map head, major type 5, returning the
number of key/value pairs (section 4.1). -/
def readMapHead (b : Bytes) : Option (Nat × Bytes) :=
  match readHead b with
  | some (5, n, rest) => some (n, rest)
  | _ => none

/-- Go dynamic `crypto.PublicKey` values, as distinguished by the source's
type assertions.  `ecdsaPtr` is `*ecdsa.PublicKey` (curve 1 = P-256,
2 = P-384, 3 = P-521), `ed25519Ptr` is `*ed25519.PublicKey`, `ed25519Val`
a plain non-pointer `ed25519.PublicKey`, `rsaPtr` is `*rsa.PublicKey`. -/
inductive CryptoPublicKey where
  | ecdsaPtr (curve : Nat) (x y : Bytes)
  | ed25519Ptr (key : Bytes)
  | ed25519Val (key : Bytes)
  | rsaPtr (n e : Bytes)
  deriving DecidableEq

/-- A decoded CBOR scalar stored while reading a COSE_Key map. -/
inductive CoseVal where
  | vint (i : Int)
  | vbytes (b : Bytes)
  deriving DecidableEq

/-- Modelled from the spec: the labelled entries of a COSE_Key map —
label 1 (kty), label 3 (alg), labels -1, -2, -3 (section 4.2). -/
structure CoseRaw where
  l1 : Option CoseVal
  l3 : Option CoseVal
  lm1 : Option CoseVal
  lm2 : Option CoseVal
  lm3 : Option CoseVal
  deriving DecidableEq

/-- Record a COSE_Key map entry under its integer label; unknown labels
are skipped (section 4.2). -/
def coseAssign (r : CoseRaw) (label : Int) (v : CoseVal) : CoseRaw :=
  if label = 1 then { r with l1 := some v }
  else if label = 3 then { r with l3 := some v }
  else if label = -1 then { r with lm1 := some v }
  else if label = -2 then { r with lm2 := some v }
  else if label = -3 then { r with lm3 := some v }
  else r

/-- Modelled from the spec: read the `count` entries of a COSE_Key map.
Each key is an integer label; integer and byte-string values are stored,
other value shapes are skipped (section 4.2). -/
def coseEntries : Nat → Bytes → CoseRaw → Option (CoseRaw × Bytes)
  | 0, b, r => some (r, b)
  | count + 1, b, r =>
    match readInt b with
    | none => none
    | some (label, rest) =>
      match readHead rest with
      | none => none
      | some (major, _, _) =>
        if major = 0 ∨ major = 1 then
          match readInt rest with
          | none => none
          | some (v, rest2) => coseEntries count rest2 (coseAssign r label (CoseVal.vint v))
        else if major = 2 then
          match readBytes rest with
          | none => none
          | some (v, rest2) => coseEntries count rest2 (coseAssign r label (CoseVal.vbytes v))
        else
          match skipN 1 rest with
          | none => none
          | some rest2 => coseEntries count rest2 r

/-- Result of the COSE key reader: an algorithm identifier and a
language-neutral public-key value (the `PublicKey` value returned by the
cbor decoder, with fields `Algorithm` and `Public`). -/
structure CosePublicKey where
  algorithm : Int
  publicKey : CryptoPublicKey
  deriving DecidableEq

/-- Left-pad an EC coordinate with zeros to the curve length; reject if
longer (section 4.2). -/
def padCoord (len : Nat) (x : Bytes) : Option Bytes :=
  if x.length ≤ len then some (List.replicate (len - x.length) 0 ++ x) else none

/-- Modelled from the spec: interpret the collected COSE_Key labels.
kty 2 = EC2 with crv/x/y, kty 1 = OKP with crv 6 (Ed25519) and a 32-byte
key, kty 3 = RSA with n/e; alg and kty must agree; missing required
labels fail (section 4.2). -/
def coseInterpret (r : CoseRaw) : Option CosePublicKey :=
  match r.l1, r.l3 with
  | some (CoseVal.vint kty), some (CoseVal.vint alg) =>
    if kty = 2 then
      match r.lm1, r.lm2, r.lm3 with
      | some (CoseVal.vint crv), some (CoseVal.vbytes x), some (CoseVal.vbytes y) =>
        if (alg = ES256 ∧ crv = 1) ∨ (alg = ES384 ∧ crv = 2) ∨ (alg = ES512 ∧ crv = 3) then
          match padCoord (if crv = 1 then 32 else if crv = 2 then 48 else 66) x,
              padCoord (if crv = 1 then 32 else if crv = 2 then 48 else 66) y with
          | some px, some py =>
            some { algorithm := alg, publicKey := CryptoPublicKey.ecdsaPtr crv.toNat px py }
          | _, _ => none
        else none
      | _, _, _ => none
    else if kty = 1 then
      match r.lm1, r.lm2 with
      | some (CoseVal.vint crv), some (CoseVal.vbytes key) =>
        if alg = EdDSA ∧ crv = 6 ∧ key.length = 32 then
          some { algorithm := alg, publicKey := CryptoPublicKey.ed25519Ptr key }
        else none
      | _, _ => none
    else if kty = 3 then
      match r.lm1, r.lm2 with
      | some (CoseVal.vbytes n), some (CoseVal.vbytes e) =>
        if alg = RS256 ∨ alg = RS384 ∨ alg = RS512 then
          some { algorithm := alg, publicKey := CryptoPublicKey.rsaPtr n e }
        else none
      | _, _ => none
    else none
  | _, _ => none

/-- Modelled from the spec: the cbor decoder's `PublicKey` — decode one
COSE_Key map positioned at the input and return it with the unread tail
(sections 4.1 and 4.2). -/
def cosePublicKey (b : Bytes) : Option (CosePublicKey × Bytes) :=
  match readMapHead b with
  | none => none
  | some (count, rest) =>
    match coseEntries count rest ⟨none, none, none, none, none⟩ with
    | none => none
    | some (r, rest2) =>
      match coseInterpret r with
      | none => none
      | some k => some (k, rest2)

/-- `AttestationObject` as in `webauthn.go`: the raw `fmt`, `attStmt` and
`authData` fields.  The format is kept as its raw UTF-8 bytes. -/
structure AttestationObject where
  format : Bytes
  attestationStatement : Bytes
  authenticatorData : Bytes
  deriving DecidableEq

/-- UTF-8 bytes of the map key `"fmt"`. -/
def fmtKey : Bytes := [102, 109, 116]

/-- UTF-8 bytes of the map key `"attStmt"`. -/
def attStmtKey : Bytes := [97, 116, 116, 83, 116, 109, 116]

/-- UTF-8 bytes of the map key `"authData"`. -/
def authDataKey : Bytes := [97, 117, 116, 104, 68, 97, 116, 97]

/-- The entry function [parseAttestationObject] passes to the decoder's
`Map`: read a text key, then dispatch — `"fmt"` reads a text value,
`"attStmt"` captures the raw item, `"authData"` reads a byte string, any
other key is skipped (`webauthn.go`, `parseAttestationObject`). -/
def attObjEntries : Nat → Bytes → AttestationObject → Option (AttestationObject × Bytes)
  | 0, b, acc => some (acc, b)
  | count + 1, b, acc =>
    match readText b with
    | none => none
    | some (key, rest) =>
      if key = fmtKey then
        match readText rest with
        | none => none
        | some (v, rest2) => attObjEntries count rest2 { acc with format := v }
      else if key = attStmtKey then
        match rawItem rest with
        | none => none
        | some (v, rest2) => attObjEntries count rest2 { acc with attestationStatement := v }
      else if key = authDataKey then
        match readBytes rest with
        | none => none
        | some (v, rest2) => attObjEntries count rest2 { acc with authenticatorData := v }
      else
        match skipN 1 rest with
        | none => none
        | some rest2 => attObjEntries count rest2 acc

/-- The `d.Map(...)` call of `parseAttestationObject`: read the top-level
map head and fold the entry function over its entries, starting from the
zero values of the three accumulator variables. -/
def attObjCore (b : Bytes) : Option (AttestationObject × Bytes) :=
  match readMapHead b with
  | none => none
  | some (count, rest) => attObjEntries count rest ⟨[], [], []⟩

/-- `parseAttestationObject` from `webauthn.go`: the map must parse and
consume the whole input (`!d.Map(...) || !d.Done()` fails with
"invalid cbor data"), and the collected `authData` must be nonempty
("no auth data"); both failures are the spec's `MalformedAttestation`. -/
def parseAttestationObject (b : Bytes) : Except WebauthnError AttestationObject :=
  match attObjCore b with
  | none => Except.error WebauthnError.malformedAttestation
  | some (obj, rest) =>
    if rest ≠ [] then Except.error WebauthnError.malformedAttestation
    else if obj.authenticatorData = [] then Except.error WebauthnError.malformedAttestation
    else Except.ok obj

/-- Big-endian `uint16` of a 2-byte list (`binary.BigEndian.Uint16`). -/
def be16 (b : Bytes) : Nat := b.getD 0 0 * 256 + b.getD 1 0

/-- Big-endian `uint32` of a 4-byte list (`binary.BigEndian.Uint32`). -/
def be32 (b : Bytes) : Nat :=
  ((b.getD 0 0 * 256 + b.getD 1 0) * 256 + b.getD 2 0) * 256 + b.getD 3 0

/-- The external cryptographic primitives of Go's standard library used
by `webauthn.go`, as uninterpreted functions: the SHA-2 digests,
`ecdsa.VerifyASN1` (curve, x, y, digest, signature),
`ed25519.Verify` (key, message, signature) and `rsa.VerifyPKCS1v15`
(n, e, hash identifier, digest, signature). -/
structure CryptoPrims where
  sha256 : Bytes → Bytes
  sha384 : Bytes → Bytes
  sha512 : Bytes → Bytes
  ecdsaVerifyASN1 : Nat → Bytes → Bytes → Bytes → Bytes → Bool
  ed25519Verify : Bytes → Bytes → Bytes → Bool
  rsaVerifyPKCS1v15 : Bytes → Bytes → Nat → Bytes → Bytes → Bool

/-- Go's `subtle.ConstantTimeCompare`: zero when the lengths differ,
otherwise one exactly when the OR-accumulated XOR of corresponding bytes
is zero. -/
def constantTimeCompare (x y : Bytes) : Nat :=
  if x.length = y.length then
    if ((List.zip x y).map (fun p => p.1 % 256 ^^^ p.2 % 256)).foldl (fun v w => v ||| w) 0 = 0
    then 1 else 0
  else 0

/-- `clientDataChallenge.Equal` from `webauthn.go`:
`subtle.ConstantTimeCompare(c, b) == 1`. -/
def challengeEqual (c b : Bytes) : Bool := constantTimeCompare c b == 1

/-- The AT flag: bit 6 of the flags byte (`Flags.AttestedCredentialData`). -/
def flagAT (f : Nat) : Bool := Nat.testBit f 6

/-- The ED flag: bit 7 of the flags byte (`Flags.Extensions`). -/
def flagED (f : Nat) : Bool := Nat.testBit f 7

/-- `AuthenticatorData` as in `webauthn.go`: flags, counter, AAGUID,
credential ID, algorithm, public key and raw extension bytes. -/
structure AuthenticatorData where
  flags : Nat
  counter : Nat
  aaguid : Bytes
  credentialID : Bytes
  algorithm : Int
  publicKey : CryptoPublicKey
  extensions : Bytes
  deriving DecidableEq

/-- `ParseAuthenticatorData(rpID, b)` from `webauthn.go`.  The source
repeatedly reslices `b`; here each reslice is written as a `drop` from
the original input (after the 32-byte hash, 1 flag byte, 4 counter
bytes, 16 AAGUID bytes and 2 credential-ID-length bytes the offsets are
32, 33, 37, 53 and 55).  Note the source reads the AAGUID, credential ID
and COSE key unconditionally — it never consults the flags byte. -/
def ParseAuthenticatorData (C : CryptoPrims) (rpID : Bytes) (b : Bytes) :
    Except WebauthnError AuthenticatorData :=
  if b.length < 32 then Except.error WebauthnError.malformedAuthData
  else if b.take 32 ≠ C.sha256 rpID then Except.error WebauthnError.relyingPartyMismatch
  else if (b.drop 32).length < 1 then Except.error WebauthnError.malformedAuthData
  else if (b.drop 33).length < 4 then Except.error WebauthnError.malformedAuthData
  else if (b.drop 37).length < 16 then Except.error WebauthnError.malformedAuthData
  else if (b.drop 53).length < 2 then Except.error WebauthnError.malformedAuthData
  else if (b.drop 55).length < be16 ((b.drop 53).take 2) then
    Except.error WebauthnError.malformedAuthData
  else
    match cosePublicKey ((b.drop 55).drop (be16 ((b.drop 53).take 2))) with
    | none => Except.error WebauthnError.malformedCOSEKey
    | some (pub, rest) =>
      Except.ok
        { flags := (b.drop 32).getD 0 0
          counter := be32 ((b.drop 33).take 4)
          aaguid := (b.drop 37).take 16
          credentialID := (b.drop 55).take (be16 ((b.drop 53).take 2))
          algorithm := pub.algorithm
          publicKey := pub.publicKey
          extensions := rest }

/-- `VerifySignature(pub, alg, data, sig)` from `webauthn.go`: a single
dispatch on the algorithm.  Each recognized algorithm first type-asserts
the expected pointer key shape (`AlgorithmKeyMismatch` on failure), then
calls the paired primitive (`InvalidSignature` on failure); any other
tag is `UnsupportedAlgorithm`. -/
def VerifySignature (C : CryptoPrims) (pub : CryptoPublicKey) (alg : Int) (data sig : Bytes) :
    Except WebauthnError Unit :=
  if alg = ES256 then
    match pub with
    | CryptoPublicKey.ecdsaPtr c x y =>
      if C.ecdsaVerifyASN1 c x y (C.sha256 data) sig then Except.ok ()
      else Except.error WebauthnError.invalidSignature
    | _ => Except.error WebauthnError.algorithmKeyMismatch
  else if alg = ES384 then
    match pub with
    | CryptoPublicKey.ecdsaPtr c x y =>
      if C.ecdsaVerifyASN1 c x y (C.sha384 data) sig then Except.ok ()
      else Except.error WebauthnError.invalidSignature
    | _ => Except.error WebauthnError.algorithmKeyMismatch
  else if alg = ES512 then
    match pub with
    | CryptoPublicKey.ecdsaPtr c x y =>
      if C.ecdsaVerifyASN1 c x y (C.sha512 data) sig then Except.ok ()
      else Except.error WebauthnError.invalidSignature
    | _ => Except.error WebauthnError.algorithmKeyMismatch
  else if alg = EdDSA then
    match pub with
    | CryptoPublicKey.ed25519Ptr k =>
      if C.ed25519Verify k data sig then Except.ok ()
      else Except.error WebauthnError.invalidSignature
    | _ => Except.error WebauthnError.algorithmKeyMismatch
  else if alg = RS256 then
    match pub with
    | CryptoPublicKey.rsaPtr n e =>
      if C.rsaVerifyPKCS1v15 n e 256 (C.sha256 data) sig then Except.ok ()
      else Except.error WebauthnError.invalidSignature
    | _ => Except.error WebauthnError.algorithmKeyMismatch
  else if alg = RS384 then
    match pub with
    | CryptoPublicKey.rsaPtr n e =>
      if C.rsaVerifyPKCS1v15 n e 384 (C.sha384 data) sig then Except.ok ()
      else Except.error WebauthnError.invalidSignature
    | _ => Except.error WebauthnError.algorithmKeyMismatch
  else if alg = RS512 then
    match pub with
    | CryptoPublicKey.rsaPtr n e =>
      if C.rsaVerifyPKCS1v15 n e 512 (C.sha512 data) sig then Except.ok ()
      else Except.error WebauthnError.invalidSignature
    | _ => Except.error WebauthnError.algorithmKeyMismatch
  else Except.error WebauthnError.unsupportedAlgorithm

/-- The parsed `clientData` structure of `webauthn.go`; the challenge is
stored already base64url-decoded (its `UnmarshalJSON`), and a missing
challenge field is left as its zero value, the empty byte string. -/
structure ClientData where
  type : String
  challenge : Bytes
  origin : String
  topOrigin : String
  crossOrigin : Bool
  deriving DecidableEq

/-- `RelyingParty` from `webauthn.go`.  The ID is kept as the byte string
the source hashes (`[]byte(rp.ID)`). -/
structure RelyingParty where
  id : Bytes
  origin : String

/-- `Assertion` from `webauthn.go`: flags byte and counter. -/
structure Assertion where
  flags : Nat
  counter : Nat
  deriving DecidableEq

/-- `RelyingParty.VerifyAttestation` from `webauthn.go`.  Go's
`encoding/json` unmarshalling of the client data is an external
collaborator passed as `parseCD`. -/
def VerifyAttestation (C : CryptoPrims) (parseCD : Bytes → Option ClientData)
    (rp : RelyingParty) (challenge clientDataJSON attestationObject : Bytes) :
    Except WebauthnError AuthenticatorData :=
  match parseCD clientDataJSON with
  | none => Except.error WebauthnError.malformedClientData
  | some cd =>
    if cd.type ≠ "webauthn.create" then Except.error WebauthnError.clientDataTypeMismatch
    else if cd.origin ≠ rp.origin then Except.error WebauthnError.originMismatch
    else if challengeEqual cd.challenge challenge then
      match parseAttestationObject attestationObject with
      | Except.error e => Except.error e
      | Except.ok attObj => ParseAuthenticatorData C rp.id attObj.authenticatorData
    else Except.error WebauthnError.challengeMismatch

/-- `RelyingParty.VerifyAttestationObject` from `webauthn.go`: the same
client-data checks, stopping after the attestation-object parse. -/
def VerifyAttestationObject (C : CryptoPrims) (parseCD : Bytes → Option ClientData)
    (rp : RelyingParty) (challenge clientDataJSON attestationObject : Bytes) :
    Except WebauthnError AttestationObject :=
  match parseCD clientDataJSON with
  | none => Except.error WebauthnError.malformedClientData
  | some cd =>
    if cd.type ≠ "webauthn.create" then Except.error WebauthnError.clientDataTypeMismatch
    else if cd.origin ≠ rp.origin then Except.error WebauthnError.originMismatch
    else if challengeEqual cd.challenge challenge then
      parseAttestationObject attestationObject
    else Except.error WebauthnError.challengeMismatch

/-- `RelyingParty.VerifyAssertion` from `webauthn.go`: client-data checks
with expected type `"webauthn.get"`; signature over
`authData ∥ SHA-256(clientDataJSON)`; then the RP-ID hash, flags and
counter are re-derived from `authData` with step-by-step length checks. -/
def VerifyAssertion (C : CryptoPrims) (parseCD : Bytes → Option ClientData)
    (rp : RelyingParty) (pub : CryptoPublicKey) (alg : Int)
    (challenge clientDataJSON authData sig : Bytes) :
    Except WebauthnError Assertion :=
  match parseCD clientDataJSON with
  | none => Except.error WebauthnError.malformedClientData
  | some cd =>
    if cd.type ≠ "webauthn.get" then Except.error WebauthnError.clientDataTypeMismatch
    else if cd.origin ≠ rp.origin then Except.error WebauthnError.originMismatch
    else if challengeEqual cd.challenge challenge then
      match VerifySignature C pub alg (authData ++ C.sha256 clientDataJSON) sig with
      | Except.error e => Except.error e
      | Except.ok _ =>
        if authData.length < 32 then Except.error WebauthnError.malformedAuthData
        else if C.sha256 rp.id ≠ authData.take 32 then
          Except.error WebauthnError.relyingPartyMismatch
        else if authData.length < 32 + 1 then Except.error WebauthnError.malformedAuthData
        else if authData.length < 32 + 1 + 4 then Except.error WebauthnError.malformedAuthData
        else Except.ok { flags := authData.getD 32 0, counter := be32 ((authData.drop 33).take 4) }
    else Except.error WebauthnError.challengeMismatch

/-- A concrete instantiation of the external primitives, used to evaluate
the model at specific inputs: each digest is a constant all-zero string
of the correct length and every verifier accepts. -/
def trivPrims : CryptoPrims :=
  ⟨fun _ => List.replicate 32 0, fun _ => List.replicate 48 0, fun _ => List.replicate 64 0,
    fun _ _ _ _ _ => true, fun _ _ _ => true, fun _ _ _ _ _ => true⟩

/-- A concrete COSE_Key: EC2 (kty 2), ES256 (alg -7), P-256 (crv 1), with
all-zero 32-byte x and y coordinates. -/
def coseKeyBytes : Bytes :=
  [0xa5, 0x01, 0x02, 0x03, 0x26, 0x20, 0x01, 0x21, 0x58, 0x20] ++ List.replicate 32 0 ++
    [0x22, 0x58, 0x20] ++ List.replicate 32 0

/-- A concrete 132-byte `authData`: all-zero RP-ID hash, flags byte 0 (AT
and ED both clear), zero counter, zero AAGUID, zero-length credential ID,
then [coseKeyBytes]. -/
def authDataBytes : Bytes :=
  List.replicate 32 0 ++ [0x00] ++ [0, 0, 0, 0] ++ List.replicate 16 0 ++ [0, 0] ++ coseKeyBytes

/-- A concrete attestation object: a CBOR map with the single entry
`"authData"` mapped to [authDataBytes] — no `fmt`, no `attStmt`. -/
def attObjBytes : Bytes :=
  [0xa1, 0x68, 97, 117, 116, 104, 68, 97, 116, 97, 0x58, 132] ++ authDataBytes

/-- The `AuthenticatorData` value the model yields for [authDataBytes]. -/
def authDataParsed : AuthenticatorData :=
  ⟨0, 0, List.replicate 16 0, [], -7,
    CryptoPublicKey.ecdsaPtr 1 (List.replicate 32 0) (List.replicate 32 0), []⟩

/-- A parsed client data for a creation ceremony with empty challenge. -/
def createCD : ClientData := ⟨"webauthn.create", [], "", "", false⟩

/-- A parsed client data for an authentication ceremony with empty
challenge. -/
def getCD : ClientData := ⟨"webauthn.get", [], "", "", false⟩

/-- A client-data decoding that always yields [createCD]. -/
def parseCDcreate : Bytes → Option ClientData := fun _ => some createCD

/-- A client-data decoding that always yields [getCD]. -/
def parseCDget : Bytes → Option ClientData := fun _ => some getCD

/-- A client-data decoding with a one-byte challenge, for exercising the
challenge comparison. -/
def parseCDone : Bytes → Option ClientData :=
  fun _ => some ⟨"webauthn.create", [1], "", "", false⟩

/-- A client-data decoding that returns the creation type for the empty
input and a mutated type string for any other input. -/
def parseCDmut : Bytes → Option ClientData :=
  fun b =>
    if b = [] then some ⟨"webauthn.create", [], "", "", false⟩
    else some ⟨"webauthn.bogus", [], "", "", false⟩

/-- A relying party whose ID is the empty byte string and whose origin is
the empty string. -/
def rpTest : RelyingParty := ⟨[], ""⟩

/-- A concrete 37-byte assertion `authData`: all-zero RP-ID hash, flags
byte 5, counter 1. -/
def assertAuthData : Bytes := List.replicate 32 0 ++ [5, 0, 0, 0, 1]

theorem parseAttestationObject_error_kind {b : Bytes} {e : WebauthnError}
    (h : parseAttestationObject b = Except.error e) :
    e = WebauthnError.malformedAttestation := by
  unfold parseAttestationObject at h
  split at h
  · injection h with h
    exact h.symm
  · split at h
    · injection h with h
      exact h.symm
    · split at h
      · injection h with h
        exact h.symm
      · exact Except.noConfusion h

theorem parseAuthenticatorData_error_kind {C : CryptoPrims} {rpID b : Bytes}
    {e : WebauthnError} (h : ParseAuthenticatorData C rpID b = Except.error e) :
    e = WebauthnError.malformedAuthData ∨ e = WebauthnError.relyingPartyMismatch ∨
      e = WebauthnError.malformedCOSEKey := by
  unfold ParseAuthenticatorData at h
  split_ifs at h <;>
    first
      | (injection h with h; subst h; simp)
      | (split at h <;>
          first
            | (injection h with h; subst h; simp)
            | exact Except.noConfusion h)

theorem verifySignature_error_kind {C : CryptoPrims} {pub : CryptoPublicKey} {alg : Int}
    {data sig : Bytes} {e : WebauthnError}
    (h : VerifySignature C pub alg data sig = Except.error e) :
    e = WebauthnError.invalidSignature ∨ e = WebauthnError.algorithmKeyMismatch ∨
      e = WebauthnError.unsupportedAlgorithm := by
  unfold VerifySignature at h
  split_ifs at h <;>
    first
      | (injection h with h; subst h; simp)
      | (split at h <;>
          first
            | (injection h with h; subst h; simp)
            | exact Except.noConfusion h
            | (split_ifs at h <;>
                first
                  | (injection h with h; subst h; simp)
                  | exact Except.noConfusion h))

/-- Claim C5: for every algorithm tag not in the recognized set
{-7, -35, -36, -8, -257, -258, -259} and for all public keys, messages
and signatures, [VerifySignature] fails with the `UnsupportedAlgorithm`
error; there is no fallback to any other scheme. -/
theorem verifySignature_unknown_alg_unsupported (C : CryptoPrims) (pub : CryptoPublicKey)
    (alg : Int) (data sig : Bytes)
    (h : alg ∉ ([ES256, ES384, ES512, EdDSA, RS256, RS384, RS512] : List Int)) :
    VerifySignature C pub alg data sig = Except.error WebauthnError.unsupportedAlgorithm := by
  simp only [List.mem_cons, List.not_mem_nil, or_false, not_or] at h
  obtain ⟨h1, h2, h3, h4, h5, h6, h7⟩ := h
  unfold VerifySignature
  rw [if_neg h1, if_neg h2, if_neg h3, if_neg h4, if_neg h5, if_neg h6, if_neg h7]

/-- Claim C5 witness: `VerifySignature` at the unrecognized tag -9999. -/
theorem verifySignature_unknown_alg_unsupported_witness :
    VerifySignature trivPrims (CryptoPublicKey.ed25519Ptr []) (-9999) [] [] =
      Except.error WebauthnError.unsupportedAlgorithm :=
  verifySignature_unknown_alg_unsupported trivPrims (CryptoPublicKey.ed25519Ptr [])
    (-9999) [] [] (by decide)

/-- Claim C9: [VerifySignature] with algorithm EdDSA succeeds only when
the supplied public key is a pointer to an `ed25519.PublicKey`
(constructor `ed25519Ptr`); a plain non-pointer `ed25519.PublicKey`
(constructor `ed25519Val`) is rejected with the algorithm/key-mismatch
error regardless of whether the signature would verify. -/
theorem verifySignature_eddsa_requires_pointer_key :
    (∀ (C : CryptoPrims) (k data sig : Bytes),
        VerifySignature C (CryptoPublicKey.ed25519Val k) EdDSA data sig =
          Except.error WebauthnError.algorithmKeyMismatch) ∧
    (∀ (C : CryptoPrims) (pub : CryptoPublicKey) (data sig : Bytes) (u : Unit),
        VerifySignature C pub EdDSA data sig = Except.ok u →
        ∃ k, pub = CryptoPublicKey.ed25519Ptr k) := by
  constructor
  · intro C k data sig
    rfl
  · intro C pub data sig u h
    cases pub with
    | ed25519Ptr k => exact ⟨k, rfl⟩
    | ecdsaPtr c x y =>
      simp [VerifySignature, EdDSA, ES256, ES384, ES512] at h
    | ed25519Val k =>
      simp [VerifySignature, EdDSA, ES256, ES384, ES512] at h
    | rsaPtr n e =>
      simp [VerifySignature, EdDSA, ES256, ES384, ES512, RS256, RS384, RS512] at h

/-- Claim C9 witness: a concrete EdDSA success with a pointer key, and
the mismatch rejection of the plain-value key even though the verifier
primitive of [trivPrims] accepts everything. -/
theorem verifySignature_eddsa_requires_pointer_key_witness :
    (∃ k, CryptoPublicKey.ed25519Ptr ([] : Bytes) = CryptoPublicKey.ed25519Ptr k) ∧
    VerifySignature trivPrims (CryptoPublicKey.ed25519Val []) EdDSA [] [] =
      Except.error WebauthnError.algorithmKeyMismatch :=
  ⟨verifySignature_eddsa_requires_pointer_key.2 trivPrims (CryptoPublicKey.ed25519Ptr [])
      [] [] () (by decide),
    verifySignature_eddsa_requires_pointer_key.1 trivPrims [] [] []⟩

/-- Claim C4: [ParseAuthenticatorData] fails with `RelyingPartyMismatch`
whenever the first 32 bytes of an input of at least 32 bytes differ from
SHA-256 of the relying-party ID (so no such input ever succeeds), and a
successful [VerifyAssertion] implies its `authData` prefix equals
SHA-256 of the relying-party ID. -/
theorem rpIDHash_checked :
    (∀ (C : CryptoPrims) (rpID b : Bytes), 32 ≤ b.length →
        b.take 32 ≠ C.sha256 rpID →
        ParseAuthenticatorData C rpID b = Except.error WebauthnError.relyingPartyMismatch) ∧
    (∀ (C : CryptoPrims) (parseCD : Bytes → Option ClientData) (rp : RelyingParty)
        (pub : CryptoPublicKey) (alg : Int) (challenge clientDataJSON authData sig : Bytes)
        (a : Assertion),
        VerifyAssertion C parseCD rp pub alg challenge clientDataJSON authData sig =
          Except.ok a →
        authData.take 32 = C.sha256 rp.id) := by
  constructor
  · intro C rpID b hlen hne
    unfold ParseAuthenticatorData
    rw [if_neg (by omega), if_pos hne]
  · intro C parseCD rp pub alg challenge clientDataJSON authData sig a h
    unfold VerifyAssertion at h
    split at h
    · exact Except.noConfusion h
    · split at h
      · exact Except.noConfusion h
      · split at h
        · exact Except.noConfusion h
        · split at h
          · split at h
            · exact Except.noConfusion h
            · split at h
              · exact Except.noConfusion h
              · split at h
                · exact Except.noConfusion h
                · rename_i hne
                  exact (not_ne_iff.mp hne).symm
          · exact Except.noConfusion h

/-- Claim C4 witness: a mismatching 32-byte prefix is rejected, and a
concrete successful assertion has the matching prefix. -/
theorem rpIDHash_checked_witness :
    ParseAuthenticatorData trivPrims [] (List.replicate 32 1) =
        Except.error WebauthnError.relyingPartyMismatch ∧
    assertAuthData.take 32 = trivPrims.sha256 rpTest.id :=
  ⟨rpIDHash_checked.1 trivPrims [] (List.replicate 32 1) (by decide) (by decide),
    rpIDHash_checked.2 trivPrims parseCDget rpTest (CryptoPublicKey.ed25519Ptr [])
      EdDSA [] [] assertAuthData [] ⟨5, 1⟩ (by decide)⟩

/-- Claim C2: whenever [VerifyAssertion] succeeds, the signature was
verified (via the algorithm-dispatched [VerifySignature]) over the
concatenation of `authData` and SHA-256 of `clientDataJSON`, and the
returned assertion carries exactly the flags byte `authData[32]` and the
big-endian counter read from `authData[33..36]`. -/
theorem verifyAssertion_signature_base_and_fields
    (C : CryptoPrims) (parseCD : Bytes → Option ClientData) (rp : RelyingParty)
    (pub : CryptoPublicKey) (alg : Int) (challenge clientDataJSON authData sig : Bytes)
    (a : Assertion)
    (h : VerifyAssertion C parseCD rp pub alg challenge clientDataJSON authData sig =
      Except.ok a) :
    VerifySignature C pub alg (authData ++ C.sha256 clientDataJSON) sig = Except.ok () ∧
    a.flags = authData.getD 32 0 ∧ a.counter = be32 ((authData.drop 33).take 4) := by
  unfold VerifyAssertion at h
  split at h
  · exact Except.noConfusion h
  · split at h
    · exact Except.noConfusion h
    · split at h
      · exact Except.noConfusion h
      · split at h
        · split at h
          · exact Except.noConfusion h
          · split at h
            · exact Except.noConfusion h
            · split at h
              · exact Except.noConfusion h
              · split at h
                · exact Except.noConfusion h
                · split at h
                  · exact Except.noConfusion h
                  · rename_i u hsig _ _ _ _
                    injection h with h
                    subst h
                    cases u
                    exact ⟨hsig, rfl, rfl⟩
        · exact Except.noConfusion h

/-- Claim C2 witness: a concrete successful assertion; the theorem yields
the verified signature call and the field values flags 5, counter 1. -/
theorem verifyAssertion_signature_base_and_fields_witness :
    VerifySignature trivPrims (CryptoPublicKey.ed25519Ptr []) EdDSA
        (assertAuthData ++ trivPrims.sha256 []) [] = Except.ok () ∧
    (5 : Nat) = assertAuthData.getD 32 0 ∧
    (1 : Nat) = be32 ((assertAuthData.drop 33).take 4) :=
  verifyAssertion_signature_base_and_fields trivPrims parseCDget rpTest
    (CryptoPublicKey.ed25519Ptr []) EdDSA [] [] assertAuthData [] ⟨5, 1⟩ (by decide)

/-- Claim C1 (counterexample): [ParseAuthenticatorData] accepts the
concrete input [authDataBytes], whose flags byte is 0 — AT (bit 6) and
ED (bit 7) both clear — parsing a full attested-credential block
(AAGUID, credential-ID length, credential ID, COSE key) even though the
AT bit is not set, on an input whose length is 132, not 37.  This
refutes both halves of the claim: the attested block is parsed although
AT is clear, and with neither AT nor ED set the function succeeds on an
input that is not the exact 37-byte header. -/
theorem parseAuthData_ignores_flags_counterexample :
    ParseAuthenticatorData trivPrims [] authDataBytes = Except.ok authDataParsed ∧
    flagAT (authDataBytes.getD 32 0) = false ∧
    flagED (authDataBytes.getD 32 0) = false ∧
    authDataBytes.length ≠ 37 := by
  decide

/-- Claim C1 (amended): [ParseAuthenticatorData] parses the
attested-credential block unconditionally, never consulting the flags
byte: every input shorter than the 55 bytes
rpIdHash(32) + flags(1) + counter(4) + AAGUID(16) + credIdLen(2) fails —
in particular the exact 37-byte header form with AT and ED clear. -/
theorem parseAuthData_requires_attested_block (C : CryptoPrims) (rpID b : Bytes)
    (h : b.length < 55) :
    ∃ e, ParseAuthenticatorData C rpID b = Except.error e := by
  unfold ParseAuthenticatorData
  split_ifs with h1 h2 h3 h4 h5 h6 h7
  · exact ⟨_, rfl⟩
  · exact ⟨_, rfl⟩
  · exact ⟨_, rfl⟩
  · exact ⟨_, rfl⟩
  · exact ⟨_, rfl⟩
  · exact ⟨_, rfl⟩
  · exact ⟨_, rfl⟩
  · exfalso
    simp only [List.length_drop] at h6
    omega

/-- Claim C1 (amended) witness: the 37-byte header-only input (all-zero
hash, flags 0, counter 0) is rejected. -/
theorem parseAuthData_requires_attested_block_witness :
    ∃ e, ParseAuthenticatorData trivPrims [] (List.replicate 32 0 ++ [0, 0, 0, 0, 0]) =
      Except.error e :=
  parseAuthData_requires_attested_block trivPrims [] (List.replicate 32 0 ++ [0, 0, 0, 0, 0])
    (by decide)

/-- Claim C3 (counterexample): [parseAttestationObject] succeeds on the
concrete input [attObjBytes], a CBOR map containing only an `authData`
entry — the required fields `fmt` and `attStmt` are absent, yet the
parse returns their zero values instead of failing with
`MalformedAttestation`. -/
theorem parseAttObj_missing_fields_counterexample :
    parseAttestationObject attObjBytes = Except.ok ⟨[], [], authDataBytes⟩ := by
  decide

/-- Claim C3 (amended): parsing the attestation object fails with
`MalformedAttestation` when the top-level CBOR parse fails, when input
bytes remain after the top-level map, or when the `authData` field is
absent or empty; a missing `fmt` or `attStmt` is not an error — success
is exactly a complete map parse with no trailing bytes and a nonempty
collected `authData`, whose three raw fields (defaulting to empty) are
returned.  The two closed conjuncts exhibit the trailing-garbage and
missing-`authData` failures. -/
theorem parseAttObj_error_conditions :
    (∀ (b : Bytes) (o : AttestationObject),
        parseAttestationObject b = Except.ok o ↔
          attObjCore b = some (o, []) ∧ o.authenticatorData ≠ []) ∧
    parseAttestationObject (attObjBytes ++ [0]) =
        Except.error WebauthnError.malformedAttestation ∧
    parseAttestationObject [0xa1, 0x63, 102, 109, 116, 0x63, 97, 98, 99] =
        Except.error WebauthnError.malformedAttestation := by
  refine ⟨?_, by decide, by decide⟩
  intro b o
  constructor
  · intro h
    unfold parseAttestationObject at h
    split at h
    · exact Except.noConfusion h
    · rename_i obj rest heq
      split at h
      · exact Except.noConfusion h
      · split at h
        · exact Except.noConfusion h
        · rename_i hrest hne
          injection h with h
          subst h
          rw [not_ne_iff.mp hrest] at heq
          exact ⟨heq, hne⟩
  · rintro ⟨hc, hne⟩
    unfold parseAttestationObject
    rw [hc]
    simp [hne]

theorem or_eq_zero_pair {a b : Nat} : a ||| b = 0 ↔ a = 0 ∧ b = 0 := by
  constructor
  · intro h
    refine ⟨Nat.zero_of_testBit_eq_false fun i => ?_,
      Nat.zero_of_testBit_eq_false fun i => ?_⟩
    · have := congrArg (fun n => Nat.testBit n i) h
      simp [Nat.testBit_or] at this
      exact this.1
    · have := congrArg (fun n => Nat.testBit n i) h
      simp [Nat.testBit_or] at this
      exact this.2
  · rintro ⟨rfl, rfl⟩
    rfl

theorem foldl_or_eq_zero (l : List Nat) (acc : Nat) :
    l.foldl (fun v w => v ||| w) acc = 0 ↔ acc = 0 ∧ ∀ x ∈ l, x = 0 := by
  induction l generalizing acc with
  | nil => simp
  | cons a l ih =>
    simp only [List.foldl_cons, ih, List.mem_cons, or_eq_zero_pair]
    constructor
    · rintro ⟨⟨h1, h2⟩, h3⟩
      exact ⟨h1, fun x hx => hx.elim (fun hxa => hxa ▸ h2) (h3 x)⟩
    · rintro ⟨h1, h2⟩
      exact ⟨⟨h1, h2 a (Or.inl rfl)⟩, fun x hx => h2 x (Or.inr hx)⟩

theorem mem_zip_self {l : List Nat} {p : Nat × Nat} (hp : p ∈ List.zip l l) :
    p.1 = p.2 := by
  induction l with
  | nil => simp at hp
  | cons a l ih =>
    rw [List.zip_cons_cons, List.mem_cons] at hp
    rcases hp with rfl | hp
    · rfl
    · exact ih hp

theorem bytes_eq_of_zip_mod_eq {x y : Bytes} (hlen : x.length = y.length)
    (hall : ∀ p ∈ List.zip x y, p.1 % 256 = p.2 % 256)
    (hx : ∀ a ∈ x, a < 256) (hy : ∀ a ∈ y, a < 256) : x = y := by
  induction x generalizing y with
  | nil =>
    cases y with
    | nil => rfl
    | cons b y => simp at hlen
  | cons a x ih =>
    cases y with
    | nil => simp at hlen
    | cons b y =>
      have h1 : a % 256 = b % 256 := hall (a, b) (by simp [List.zip_cons_cons])
      have ha : a < 256 := hx a (by simp)
      have hb : b < 256 := hy b (by simp)
      have hab : a = b := by
        rw [Nat.mod_eq_of_lt ha, Nat.mod_eq_of_lt hb] at h1
        exact h1
      subst hab
      have htail : x = y :=
        ih (by simpa using hlen)
          (fun p hp => hall p (by simp [List.zip_cons_cons, hp]))
          (fun c hc => hx c (by simp [hc]))
          (fun c hc => hy c (by simp [hc]))
      rw [htail]

theorem constantTimeCompare_eq_one_iff {x y : Bytes}
    (hx : ∀ a ∈ x, a < 256) (hy : ∀ a ∈ y, a < 256) :
    constantTimeCompare x y = 1 ↔ x = y := by
  unfold constantTimeCompare
  constructor
  · intro h
    split at h
    · rename_i hlen
      split at h
      · rename_i hz
        rw [foldl_or_eq_zero] at hz
        obtain ⟨-, hall⟩ := hz
        refine bytes_eq_of_zip_mod_eq hlen (fun p hp => ?_) hx hy
        have := hall (p.1 % 256 ^^^ p.2 % 256) (List.mem_map_of_mem _ hp)
        exact Nat.xor_eq_zero.mp this
      · exact absurd h (by decide)
    · exact absurd h (by decide)
  · intro h
    subst h
    rw [if_pos rfl, if_pos]
    rw [foldl_or_eq_zero]
    refine ⟨rfl, fun w hw => ?_⟩
    obtain ⟨p, hp, hpe⟩ := List.mem_map.mp hw
    rw [← hpe, mem_zip_self hp, Nat.xor_self]

theorem challengeEqual_iff {x y : Bytes}
    (hx : ∀ a ∈ x, a < 256) (hy : ∀ a ∈ y, a < 256) :
    challengeEqual x y = true ↔ x = y := by
  unfold challengeEqual
  rw [beq_iff_eq]
  exact constantTimeCompare_eq_one_iff hx hy

/-- Claim C6: with the client-data type and origin checks passed,
[VerifyAttestation] fails with `ChallengeMismatch` exactly when the
decoded challenge differs from the caller-supplied challenge bytes —
any difference in length counts as inequality (the comparison is Go's
`subtle.ConstantTimeCompare`, which returns 0 on length mismatch). -/
theorem verifyAttestation_challenge_mismatch_iff
    (C : CryptoPrims) (parseCD : Bytes → Option ClientData) (rp : RelyingParty)
    (challenge clientDataJSON attestationObject : Bytes) (cd : ClientData)
    (hp : parseCD clientDataJSON = some cd)
    (ht : cd.type = "webauthn.create") (ho : cd.origin = rp.origin)
    (hc : ∀ a ∈ cd.challenge, a < 256) (hch : ∀ a ∈ challenge, a < 256) :
    (VerifyAttestation C parseCD rp challenge clientDataJSON attestationObject =
        Except.error WebauthnError.challengeMismatch) ↔ cd.challenge ≠ challenge := by
  unfold VerifyAttestation
  simp only [hp]
  rw [if_neg (by simp [ht]), if_neg (by simp [ho])]
  by_cases heq : challengeEqual cd.challenge challenge = true
  · rw [if_pos heq]
    have hceq : cd.challenge = challenge := (challengeEqual_iff hc hch).mp heq
    constructor
    · intro habs
      exfalso
      cases hA : parseAttestationObject attestationObject with
      | error e =>
        simp only [hA] at habs
        injection habs with habs
        have hk := parseAttestationObject_error_kind hA
        rw [habs] at hk
        exact WebauthnError.noConfusion hk
      | ok o =>
        simp only [hA] at habs
        rcases parseAuthenticatorData_error_kind habs with hk | hk | hk <;>
          exact WebauthnError.noConfusion hk
    · intro hne
      exact absurd hceq hne
  · rw [if_neg heq]
    constructor
    · intro _ hceq
      exact heq ((challengeEqual_iff hc hch).mpr hceq)
    · intro _
      rfl

/-- Claim C6 witness: a one-byte decoded challenge against an empty
caller challenge is a `ChallengeMismatch`. -/
theorem verifyAttestation_challenge_mismatch_iff_witness :
    VerifyAttestation trivPrims parseCDone rpTest [] [] [] =
      Except.error WebauthnError.challengeMismatch :=
  (verifyAttestation_challenge_mismatch_iff trivPrims parseCDone rpTest [] [] []
      ⟨"webauthn.create", [1], "", "", false⟩ rfl rfl rfl (by decide) (by decide)).mpr
    (by decide)

/-- Claim C7: for any client data accepted at attestation with type
`"webauthn.create"`, the same data with the type value mutated to any
other string fails with `ClientDataTypeMismatch`. -/
theorem clientDataType_mutation_rejected
    (C : CryptoPrims) (parseCD : Bytes → Option ClientData) (rp : RelyingParty)
    (challenge clientDataJSON clientDataJSON2 attestationObject : Bytes)
    (a : AuthenticatorData) (cd cd2 : ClientData)
    (_hacc : VerifyAttestation C parseCD rp challenge clientDataJSON attestationObject =
      Except.ok a)
    (_hp : parseCD clientDataJSON = some cd)
    (hp2 : parseCD clientDataJSON2 = some cd2)
    (_hsame : cd2.challenge = cd.challenge ∧ cd2.origin = cd.origin ∧
      cd2.topOrigin = cd.topOrigin ∧ cd2.crossOrigin = cd.crossOrigin)
    (ht : cd2.type ≠ "webauthn.create") :
    VerifyAttestation C parseCD rp challenge clientDataJSON2 attestationObject =
      Except.error WebauthnError.clientDataTypeMismatch := by
  unfold VerifyAttestation
  simp only [hp2]
  rw [if_pos ht]

/-- Claim C7 witness: a concrete accepted attestation, and the same
parsed fields with type `"webauthn.bogus"` rejected. -/
theorem clientDataType_mutation_rejected_witness :
    VerifyAttestation trivPrims parseCDmut rpTest [] [1] attObjBytes =
      Except.error WebauthnError.clientDataTypeMismatch :=
  clientDataType_mutation_rejected trivPrims parseCDmut rpTest [] [] [1] attObjBytes
    authDataParsed ⟨"webauthn.create", [], "", "", false⟩
    ⟨"webauthn.bogus", [], "", "", false⟩
    (by decide) (by decide) (by decide) (by decide) (by decide)

/-- Claim C10: when the decoded challenge is empty (a missing challenge
field is left at its zero value by the source's JSON unmarshalling, and
a present field may decode to zero bytes) and the caller-supplied
challenge is empty, the challenge check passes in [VerifyAttestation],
[VerifyAttestationObject] and [VerifyAssertion]: none of them can
return `ChallengeMismatch`; no minimum challenge length is enforced. -/
theorem empty_challenge_accepted :
    (∀ (C : CryptoPrims) (parseCD : Bytes → Option ClientData) (rp : RelyingParty)
        (clientDataJSON attestationObject : Bytes) (cd : ClientData),
        parseCD clientDataJSON = some cd → cd.type = "webauthn.create" →
        cd.origin = rp.origin → cd.challenge = [] →
        VerifyAttestation C parseCD rp [] clientDataJSON attestationObject ≠
          Except.error WebauthnError.challengeMismatch) ∧
    (∀ (C : CryptoPrims) (parseCD : Bytes → Option ClientData) (rp : RelyingParty)
        (clientDataJSON attestationObject : Bytes) (cd : ClientData),
        parseCD clientDataJSON = some cd → cd.type = "webauthn.create" →
        cd.origin = rp.origin → cd.challenge = [] →
        VerifyAttestationObject C parseCD rp [] clientDataJSON attestationObject ≠
          Except.error WebauthnError.challengeMismatch) ∧
    (∀ (C : CryptoPrims) (parseCD : Bytes → Option ClientData) (rp : RelyingParty)
        (pub : CryptoPublicKey) (alg : Int) (clientDataJSON authData sig : Bytes)
        (cd : ClientData),
        parseCD clientDataJSON = some cd → cd.type = "webauthn.get" →
        cd.origin = rp.origin → cd.challenge = [] →
        VerifyAssertion C parseCD rp pub alg [] clientDataJSON authData sig ≠
          Except.error WebauthnError.challengeMismatch) := by
  refine ⟨?_, ?_, ?_⟩
  · intro C parseCD rp clientDataJSON attestationObject cd hp ht ho hchal habs
    unfold VerifyAttestation at habs
    simp only [hp] at habs
    rw [if_neg (by simp [ht]), if_neg (by simp [ho]), hchal, if_pos (by decide)] at habs
    cases hA : parseAttestationObject attestationObject with
    | error e =>
      simp only [hA] at habs
      injection habs with habs
      have hk := parseAttestationObject_error_kind hA
      rw [habs] at hk
      exact WebauthnError.noConfusion hk
    | ok o =>
      simp only [hA] at habs
      rcases parseAuthenticatorData_error_kind habs with hk | hk | hk <;>
        exact WebauthnError.noConfusion hk
  · intro C parseCD rp clientDataJSON attestationObject cd hp ht ho hchal habs
    unfold VerifyAttestationObject at habs
    simp only [hp] at habs
    rw [if_neg (by simp [ht]), if_neg (by simp [ho]), hchal, if_pos (by decide)] at habs
    have hk := parseAttestationObject_error_kind habs
    exact WebauthnError.noConfusion hk
  · intro C parseCD rp pub alg clientDataJSON authData sig cd hp ht ho hchal habs
    unfold VerifyAssertion at habs
    simp only [hp] at habs
    rw [if_neg (by simp [ht]), if_neg (by simp [ho]), hchal, if_pos (by decide)] at habs
    cases hS : VerifySignature C pub alg (authData ++ C.sha256 clientDataJSON) sig with
    | error e =>
      simp only [hS] at habs
      injection habs with habs
      rcases verifySignature_error_kind hS with hk | hk | hk <;>
        (rw [habs] at hk; exact WebauthnError.noConfusion hk)
    | ok u =>
      simp only [hS] at habs
      split at habs
      · injection habs with habs
        exact WebauthnError.noConfusion habs
      · split at habs
        · injection habs with habs
          exact WebauthnError.noConfusion habs
        · split at habs
          · injection habs with habs
            exact WebauthnError.noConfusion habs
          · split at habs
            · injection habs with habs
              exact WebauthnError.noConfusion habs
            · exact Except.noConfusion habs

/-- Claim C10 witness: the empty-challenge attestation is not rejected
for a challenge mismatch. -/
theorem empty_challenge_accepted_witness :
    VerifyAttestation trivPrims parseCDcreate rpTest [] [] attObjBytes ≠
      Except.error WebauthnError.challengeMismatch :=
  empty_challenge_accepted.1 trivPrims parseCDcreate rpTest [] attObjBytes createCD
    rfl rfl rfl rfl

end GoPasskeys
